import Mathlib

/-!
Verification of the resource replication and journal subsystem of
kube-scheduler-simulator: the syncer pipeline (`simulator/syncer`), the
recorder journal, and the replayer, shallowly embedded in Lean 4.

The embedding follows the Go sources: `unstructured.Unstructured` objects
are modelled by the structure `Obj`, which carries exactly the fields the
pipeline code inspects (metadata identity fields, the pod placement and
service-account fields, the PV claim reference and phase) plus an opaque
remainder `rest` standing for every attribute the code never touches.
Fallible Go functions return `Except GoErr` values; the one place the code
can dereference a nil pointer (`mutatePV` on a Bound PV without a claimRef)
is modelled by a distinguished `nilPanic` outcome.
-/

/-- schema.GroupVersionResource. -/
structure GVR where
  group : String
  version : String
  resource : String
deriving DecidableEq, Repr

/-- The part of a corev1.ObjectReference that mutatePV reads and writes
(pv.Spec.ClaimRef): namespace, name and UID of the referenced claim. -/
structure ClaimRef where
  ns : String
  name : String
  uid : String
deriving DecidableEq, Repr

/-- Shallow model of an unstructured resource object: the fields the syncer,
recorder and replayer code inspects, plus `rest`, an opaque association list
standing for all remaining nested attributes. -/
structure Obj where
  apiVersion : String
  kind : String
  name : String
  ns : String
  uid : String
  generation : Int
  resourceVersion : String
  /-- pod spec.nodeName; empty string when unset. -/
  nodeName : String
  /-- pod spec.serviceAccountName. -/
  serviceAccountName : String
  /-- PV spec.claimRef; `none` models a nil pointer. -/
  claimRef : Option ClaimRef
  /-- PV status.phase. -/
  phase : String
  /-- every attribute the code never touches. -/
  rest : List (String × String)
deriving DecidableEq, Repr

/-- Errors surfaced by store clients and the pipeline, classified the way the
code classifies them (apierrors.IsNotFound / IsAlreadyExists / anything else). -/
inductive GoErr where
  | notFound
  | alreadyExists
  | other (msg : String)
deriving DecidableEq, Repr

/-- syncer.Event: the event constants passed to filtering/mutating functions.
The Go type has exactly the two constants Add and Update. -/
inductive Event where
  | add
  | update
deriving DecidableEq, Repr

/-- The dynamic clients and REST mapper held by syncer.Clients.  A store Get
is modelled as a pure lookup returning `none` for NotFound; the REST mapper
maps (kind, apiVersion) to a GroupVersionResource, `none` for no match. -/
structure Clients where
  /-- SrcDynamicClient: Get on the source cluster. -/
  srcGet : GVR → String → String → Option Obj
  /-- DestDynamicClient: Get on the destination cluster (never read by the
  shipped mutators, present because syncer.Clients carries it). -/
  destGet : GVR → String → String → Option Obj
  /-- RestMapper.RESTMapping, keyed by (kind, apiVersion). -/
  restMapper : String → String → Option GVR

/-- Outcome of a mutating function: Go's (resource, error) pair, plus the
distinguished outcome of a nil-pointer dereference panic. -/
inductive MutateResult where
  | ok (o : Obj)
  | err (e : GoErr)
  | nilPanic
deriving DecidableEq, Repr

/-- syncer.FilteringFunction: returns (bool, error); false means skip. -/
def FilteringFunction : Type :=
  Clients → Event → Obj → Except GoErr Bool

/-- syncer.MutatingFunction. -/
def MutatingFunction : Type :=
  Clients → Event → Obj → MutateResult

/-- The persistentvolumeclaims GVR used inside mutatePV. -/
def pvcGVR : GVR := ⟨"", "v1", "persistentvolumeclaims"⟩

/-- The persistentvolumes GVR. -/
def pvGVR : GVR := ⟨"", "v1", "persistentvolumes"⟩

/-- The pods GVR. -/
def podsGVR : GVR := ⟨"", "v1", "pods"⟩

/-- MandatoryGVRs, in the dependency order of resource.go. -/
def MandatoryGVRs : List GVR :=
  [⟨"", "v1", "namespaces"⟩,
   ⟨"scheduling.k8s.io", "v1", "priorityclasses"⟩,
   ⟨"storage.k8s.io", "v1", "storageclasses"⟩,
   ⟨"", "v1", "persistentvolumeclaims"⟩,
   ⟨"", "v1", "nodes"⟩,
   ⟨"", "v1", "persistentvolumes"⟩,
   ⟨"", "v1", "pods"⟩]

/-- syncer.mutatePV (resource.go): when the PV is in the Bound phase, fetch
the referenced PVC from the *source* cluster and overwrite claimRef.UID with
that PVC's UID; otherwise leave the object as is.  The Go code dereferences
pv.Spec.ClaimRef without a nil check; a Bound PV whose claimRef is nil hits
the `nilPanic` outcome.  A failing source Get is returned as the error. -/
def mutatePV : MutatingFunction := fun clients _ resource =>
  if resource.phase = "Bound" then
    match resource.claimRef with
    | none => .nilPanic
    | some cr =>
      match clients.srcGet pvcGVR cr.ns cr.name with
      | none => .err .notFound
      | some pvc => .ok { resource with claimRef := some { cr with uid := pvc.uid } }
  else
    .ok resource

/-- syncer.mutatePods (resource.go): overwrite spec.serviceAccountName with
"default". -/
def mutatePods : MutatingFunction := fun _ _ resource =>
  .ok { resource with serviceAccountName := "default" }

/-- syncer.filterPods (resource.go): any non-Update event passes; an Update
whose pod already has a non-empty spec.nodeName is filtered out (false). -/
def filterPods : FilteringFunction := fun _ event resource =>
  if event ≠ Event.update then
    .ok true
  else if resource.nodeName ≠ "" then
    .ok false
  else
    .ok true

/-- syncer.MandatoryMutatingFunctions as a lookup on GVRs. -/
def MandatoryMutatingFunctions : GVR → Option MutatingFunction := fun gvr =>
  if gvr = pvGVR then some mutatePV
  else if gvr = podsGVR then some mutatePods
  else none

/-- syncer.MandatoryFilteringFunctions as a lookup on GVRs. -/
def MandatoryFilteringFunctions : GVR → Option FilteringFunction := fun gvr =>
  if gvr = podsGVR then some filterPods
  else none

/-- syncer.Service. -/
structure Service where
  clients : Clients
  gvrs : List GVR
  mutatingFunctions : GVR → Option MutatingFunction
  filteringFunctions : GVR → Option FilteringFunction

/-- syncer.Options: the additional function maps are modelled as association
lists (Go maps have at most one entry per key). -/
structure Options where
  gvrsToSync : Option (List GVR)
  additionalMutatingFunctions : List (GVR × MutatingFunction)
  additionalFilteringFunctions : List (GVR × FilteringFunction)

/-- Lookup in an association list, mirroring a Go map read. -/
def lookupFn {α : Type} : List (GVR × α) → GVR → Option α
  | [], _ => none
  | (k, v) :: t, g => if k = g then some v else lookupFn t g

/-- syncer.New: the service starts from the mandatory function maps and then
writes every additional entry into the map, so an additional entry for a key
*overwrites* the mandatory one (Go map assignment). -/
def newService (clients : Clients) (options : Options) : Service :=
  { clients := clients
    gvrs := options.gvrsToSync.getD MandatoryGVRs
    mutatingFunctions := fun gvr =>
      match lookupFn options.additionalMutatingFunctions gvr with
      | some f => some f
      | none => MandatoryMutatingFunctions gvr
    filteringFunctions := fun gvr =>
      match lookupFn options.additionalFilteringFunctions gvr with
      | some f => some f
      | none => MandatoryFilteringFunctions gvr }

/-- syncer.removeUnnecessaryMetadata: clear UID, Generation and
ResourceVersion. -/
def removeUnnecessaryMetadata (resource : Obj) : Obj :=
  { resource with uid := "", generation := 0, resourceVersion := "" }

/-- Service.findGVRForGVK: RESTMapper resolution of the object's
(kind, apiVersion). -/
def findGVRForGVK (s : Service) (kind apiVersion : String) : Option GVR :=
  s.clients.restMapper kind apiVersion

/-- What the create/update path does with an event, up to (and carrying) the
object handed to the destination write. -/
inductive ApplyOutcome where
  /-- findGVRForGVK failed: the error is returned. -/
  | resolutionErr
  /-- the filtering function returned false: return nil (no error). -/
  | skipped
  /-- the filtering function returned an error. -/
  | filterErr (e : GoErr)
  /-- the mutating function returned an error. -/
  | mutateErr (e : GoErr)
  /-- the mutating function dereferenced a nil pointer. -/
  | mutateCrashed
  /-- the pipeline reached the destination write with this object. -/
  | handed (gvr : GVR) (ns : String) (o : Obj)
deriving DecidableEq, Repr

/-- The tail of createResourceOnDestinationCluster after the filtering step:
strip metadata, run the mutating function, hand the result to Create. -/
def createAfterFilter (s : Service) (gvr : GVR) (ns : String) (resource : Obj) :
    ApplyOutcome :=
  match s.mutatingFunctions gvr with
  | some m =>
    match m s.clients .add (removeUnnecessaryMetadata resource) with
    | .ok mutated => .handed gvr ns mutated
    | .err e => .mutateErr e
    | .nilPanic => .mutateCrashed
  | none => .handed gvr ns (removeUnnecessaryMetadata resource)

/-- Service.createResourceOnDestinationCluster: resolve the GVR, take the
namespace from the object, run the filtering function (Add), strip the
metadata, run the mutating function (Add), and hand the result to the
destination Create. -/
def createResourceOnDestinationCluster (s : Service) (resource : Obj) :
    ApplyOutcome :=
  match findGVRForGVK s resource.kind resource.apiVersion with
  | none => .resolutionErr
  | some gvr =>
    match s.filteringFunctions gvr with
    | some f =>
      match f s.clients .add resource with
      | .error e => .filterErr e
      | .ok false => .skipped
      | .ok true => createAfterFilter s gvr resource.ns resource
    | none => createAfterFilter s gvr resource.ns resource

/-- The tail of updateResourceOnDestinationCluster after the filtering step:
no metadata stripping — run the mutating function and hand the result to
Update. -/
def updateAfterFilter (s : Service) (gvr : GVR) (ns : String) (resource : Obj) :
    ApplyOutcome :=
  match s.mutatingFunctions gvr with
  | some m =>
    match m s.clients .update resource with
    | .ok mutated => .handed gvr ns mutated
    | .err e => .mutateErr e
    | .nilPanic => .mutateCrashed
  | none => .handed gvr ns resource

/-- Service.updateResourceOnDestinationCluster: resolve the GVR, run the
filtering function (Update), run the mutating function (Update) on the
observed object, and hand the result to the destination Update.  Unlike the
create path there is no removeUnnecessaryMetadata step. -/
def updateResourceOnDestinationCluster (s : Service) (resource : Obj) :
    ApplyOutcome :=
  match findGVRForGVK s resource.kind resource.apiVersion with
  | none => .resolutionErr
  | some gvr =>
    match s.filteringFunctions gvr with
    | some f =>
      match f s.clients .update resource with
      | .error e => .filterErr e
      | .ok false => .skipped
      | .ok true => updateAfterFilter s gvr resource.ns resource
    | none => updateAfterFilter s gvr resource.ns resource

/-- Outcome of the delete path. -/
inductive DeleteOutcome where
  | resolutionErr
  /-- the destination Delete is invoked for (gvr, namespace, name). -/
  | handed (gvr : GVR) (ns name : String)
deriving DecidableEq, Repr

/-- Service.deleteResourceOnDestinationCluster: resolve the GVR and delete
the destination object with the observed namespace and name.  No filtering
or mutating function is consulted. -/
def deleteResourceOnDestinationCluster (s : Service) (resource : Obj) :
    DeleteOutcome :=
  match findGVRForGVK s resource.kind resource.apiVersion with
  | none => .resolutionErr
  | some gvr => .handed gvr resource.ns resource.name

/-!
## Event handlers

The informer handlers addFunc/updateFunc/deleteFunc call the corresponding
destination-cluster function once, log its error (klog), and return: the
event is dropped, never retried or requeued.  What a handler does with an
error is the observable we model: `noLog` for a nil error, `infoLog` for the
benign-skip Info log, `errLog` for klog.ErrorS.  The destination write call
itself is modelled by an oracle giving each call's result; apierrors
classification works through the xerrors %w wrapping, so the oracle returns
the underlying `GoErr`.
-/

/-- What a handler logs for one event (and `crashed` when a mutating
function's nil dereference propagates out of the handler). -/
inductive HandlerResult where
  | noLog
  | infoLog
  | errLog
  | crashed
deriving DecidableEq, Repr

/-- A destination write call, for traces of what the syncer attempted. -/
inductive DestCall where
  | create (gvr : GVR) (ns : String) (o : Obj)
  | update (gvr : GVR) (ns : String) (o : Obj)
  | delete (gvr : GVR) (ns name : String)
deriving DecidableEq, Repr

/-- The destination cluster's responses, one oracle per call shape. -/
structure DestOracle where
  create : GVR → String → Obj → Except GoErr Unit
  update : GVR → String → Obj → Except GoErr Unit
  delete : GVR → String → String → Except GoErr Unit

/-- Service.addFunc: run createResourceOnDestinationCluster; any non-nil
error — resolution, filter, mutate, or the destination Create failing for
*any* reason, AlreadyExists included — is logged with klog.ErrorS.  A
filtered event returns a nil error, so nothing is logged. -/
def addFunc (s : Service) (dest : DestOracle) (obj : Obj) :
    List DestCall × HandlerResult :=
  match createResourceOnDestinationCluster s obj with
  | .handed gvr ns o =>
    match dest.create gvr ns o with
    | .ok _ => ([.create gvr ns o], .noLog)
    | .error _ => ([.create gvr ns o], .errLog)
  | .skipped => ([], .noLog)
  | .resolutionErr => ([], .errLog)
  | .filterErr _ => ([], .errLog)
  | .mutateErr _ => ([], .errLog)
  | .mutateCrashed => ([], .crashed)

/-- Service.updateFunc: run updateResourceOnDestinationCluster; a NotFound
error (checked with apierrors.IsNotFound, which unwraps) is logged as Info
("Skipped to update resource on destination"); any other error is logged
with klog.ErrorS. -/
def updateFunc (s : Service) (dest : DestOracle) (newObj : Obj) :
    List DestCall × HandlerResult :=
  match updateResourceOnDestinationCluster s newObj with
  | .handed gvr ns o =>
    match dest.update gvr ns o with
    | .ok _ => ([.update gvr ns o], .noLog)
    | .error e => ([.update gvr ns o], if e = .notFound then .infoLog else .errLog)
  | .skipped => ([], .noLog)
  | .resolutionErr => ([], .errLog)
  | .filterErr e => ([], if e = .notFound then .infoLog else .errLog)
  | .mutateErr e => ([], if e = .notFound then .infoLog else .errLog)
  | .mutateCrashed => ([], .crashed)

/-- Service.deleteFunc: run deleteResourceOnDestinationCluster; a NotFound
error is logged as Info, any other error with klog.ErrorS. -/
def deleteFunc (s : Service) (dest : DestOracle) (obj : Obj) :
    List DestCall × HandlerResult :=
  match deleteResourceOnDestinationCluster s obj with
  | .handed gvr ns name =>
    match dest.delete gvr ns name with
    | .ok _ => ([.delete gvr ns name], .noLog)
    | .error e => ([.delete gvr ns name], if e = .notFound then .infoLog else .errLog)
  | .resolutionErr => ([], .errLog)

/-- One event as delivered by an informer to the syncer's handlers. -/
inductive WatchEvent where
  | added (o : Obj)
  | updated (oldO newO : Obj)
  | deleted (o : Obj)

/-- Dispatch one informer event to its handler. -/
def handleEvent (s : Service) (dest : DestOracle) : WatchEvent →
    List DestCall × HandlerResult
  | .added o => addFunc s dest o
  | .updated _ newO => updateFunc s dest newO
  | .deleted o => deleteFunc s dest o

/-- Sequential consumption of a feed: each event is handed to its handler
exactly once and the loop moves on regardless of the handler's outcome (the
handlers return nothing to the informer). -/
def processEvents (s : Service) (dest : DestOracle) :
    List WatchEvent → List (List DestCall × HandlerResult)
  | [] => []
  | e :: rest => handleEvent s dest e :: processEvents s dest rest

/-!
## Recorder and Replayer

The recorder and replayer Service implementations
(`simulator/recorder/recorder.go`, `simulator/replayer/replayer.go`) are not
among the provided sources — only their tests are — so they are modelled
from the spec below, against the record shapes the tests fix.
-/

/-- recorder.Event: Add, Update, Delete (the replayer test uses
recorder.Add; the recorder test's journal carries all three). -/
inductive RecEvent where
  | add
  | update
  | delete
deriving DecidableEq, Repr

/-- recorder.Record: `{event, resource}` as serialized into the journal. -/
structure Record where
  event : RecEvent
  resource : Obj
deriving DecidableEq, Repr

/-- A JSON value, the journal file's content after parsing. -/
inductive Json where
  | null
  | str (s : String)
  | num (n : Int)
  | arr (xs : List Json)
  | obj (fields : List (String × Json))

/-- Serialize an optional claim reference. -/
def encodeClaimRef : Option ClaimRef → Json
  | none => .null
  | some cr => .obj [("ns", .str cr.ns), ("name", .str cr.name), ("uid", .str cr.uid)]

/-- Parse an optional claim reference. -/
def decodeClaimRef : Json → Option (Option ClaimRef)
  | .null => some none
  | .obj [("ns", .str a), ("name", .str b), ("uid", .str c)] => some (some ⟨a, b, c⟩)
  | _ => none

/-- Serialize the opaque attribute list. -/
def encodeRest (l : List (String × String)) : Json :=
  .obj (l.map fun p => (p.1, .str p.2))

/-- Parse a field list whose values are all strings. -/
def decodeStrPairs : List (String × Json) → Option (List (String × String))
  | [] => some []
  | (k, .str v) :: t =>
    match decodeStrPairs t with
    | some tl => some ((k, v) :: tl)
    | none => none
  | _ => none

/-- Serialize one object. -/
def encodeObj (o : Obj) : Json :=
  .obj [("apiVersion", .str o.apiVersion), ("kind", .str o.kind),
        ("name", .str o.name), ("ns", .str o.ns), ("uid", .str o.uid),
        ("generation", .num o.generation),
        ("resourceVersion", .str o.resourceVersion),
        ("nodeName", .str o.nodeName),
        ("serviceAccountName", .str o.serviceAccountName),
        ("claimRef", encodeClaimRef o.claimRef), ("phase", .str o.phase),
        ("rest", encodeRest o.rest)]

/-- Take the leading field when it has the expected key and a string value. -/
def takeStr (key : String) : List (String × Json) → Option (String × List (String × Json))
  | (k, .str v) :: t => if k = key then some (v, t) else none
  | _ => none

/-- Take the leading field when it has the expected key and a number value. -/
def takeNum (key : String) : List (String × Json) → Option (Int × List (String × Json))
  | (k, .num v) :: t => if k = key then some (v, t) else none
  | _ => none

/-- Take the leading field when it has the expected key. -/
def takeVal (key : String) : List (String × Json) → Option (Json × List (String × Json))
  | (k, v) :: t => if k = key then some (v, t) else none
  | _ => none

/-- Parse the tail of an object's fields, given the already-read leading
string fields. -/
def decodeObjTail (a k n ns u : String) (g : Int) (rv nn sa : String)
    (fs : List (String × Json)) : Option Obj :=
  match takeVal "claimRef" fs with
  | none => none
  | some (crj, fs1) =>
    match decodeClaimRef crj with
    | none => none
    | some cr =>
      match takeStr "phase" fs1 with
      | none => none
      | some (ph, fs2) =>
        match takeVal "rest" fs2 with
        | none => none
        | some (.obj rj, []) =>
          match decodeStrPairs rj with
          | none => none
          | some rest => some ⟨a, k, n, ns, u, g, rv, nn, sa, cr, ph, rest⟩
        | some _ => none

/-- Parse one object: the fields in the order encodeObj writes them. -/
def decodeObj (j : Json) : Option Obj :=
  match j with
  | .obj fs0 =>
    match takeStr "apiVersion" fs0 with
    | none => none
    | some (a, fs1) =>
      match takeStr "kind" fs1 with
      | none => none
      | some (k, fs2) =>
        match takeStr "name" fs2 with
        | none => none
        | some (n, fs3) =>
          match takeStr "ns" fs3 with
          | none => none
          | some (ns, fs4) =>
            match takeStr "uid" fs4 with
            | none => none
            | some (u, fs5) =>
              match takeNum "generation" fs5 with
              | none => none
              | some (g, fs6) =>
                match takeStr "resourceVersion" fs6 with
                | none => none
                | some (rv, fs7) =>
                  match takeStr "nodeName" fs7 with
                  | none => none
                  | some (nn, fs8) =>
                    match takeStr "serviceAccountName" fs8 with
                    | none => none
                    | some (sa, fs9) => decodeObjTail a k n ns u g rv nn sa fs9
  | _ => none

/-- recorder.Event's JSON names. -/
def recEventToString : RecEvent → String
  | .add => "Add"
  | .update => "Update"
  | .delete => "Delete"

/-- Inverse of recEventToString. -/
def recEventOfString (s : String) : Option RecEvent :=
  if s = "Add" then some .add
  else if s = "Update" then some .update
  else if s = "Delete" then some .delete
  else none

/-- Serialize one journal record: `{event, resource}`. -/
def encodeRecord (r : Record) : Json :=
  .obj [("event", .str (recEventToString r.event)), ("resource", encodeObj r.resource)]

/-- Parse one journal record. -/
def decodeRecord : Json → Option Record
  | .obj [("event", .str ev), ("resource", rj)] =>
    match recEventOfString ev, decodeObj rj with
    | some e, some o => some ⟨e, o⟩
    | _, _ => none
  | _ => none

/-- Parse a list of journal records. -/
def decodeRecordList : List Json → Option (List Record)
  | [] => some []
  | j :: t =>
    match decodeRecord j, decodeRecordList t with
    | some r, some rs => some (r :: rs)
    | _, _ => none

/-- Serialize a whole journal: a single JSON array of records. -/
def encodeJournal (rs : List Record) : Json :=
  .arr (rs.map encodeRecord)

/-- Parse a whole journal file. -/
def decodeJournal : Json → Option (List Record)
  | .arr xs => decodeRecordList xs
  | _ => none

/-- Modelled from the spec: the Recorder implementation
(simulator/recorder's Service, whose test is TestRecorder) is not among the
provided sources.  Per the spec it appends, for every observed event, a
Record carrying the operation and the Object exactly as observed — no
filtering or mutation — to its in-memory buffer, in arrival order. -/
def recorderRecords (events : List (RecEvent × Obj)) : List Record :=
  events.map fun p => ⟨p.1, p.2⟩

/-- Modelled from the spec: after each append the Recorder flushes the whole
buffer to the journal file as one JSON array, so after observing `events`
the file holds the serialized buffer. -/
def recorderJournalFile (events : List (RecEvent × Obj)) : Json :=
  encodeJournal (recorderRecords events)

/-- Modelled from the spec: replayer.Service.Replay (simulator/replayer,
whose test is TestService_Replay) is not among the provided sources.  Per
the spec and its test, it walks the journal records in file order; for each
Add record it invokes the resource applier's Create; a Create failing with
AlreadyExists is treated as success and replay continues; any other Create
error aborts the remaining records and is returned.  The result is the list
of objects handed to Create, in order, together with Replay's return
value. -/
def replay (create : Obj → Except GoErr Unit) :
    List Record → List Obj × Except GoErr Unit
  | [] => ([], .ok ())
  | r :: rest =>
    match r.event with
    | .add =>
      match create r.resource with
      | .ok _ =>
        let (t, res) := replay create rest
        (r.resource :: t, res)
      | .error .alreadyExists =>
        let (t, res) := replay create rest
        (r.resource :: t, res)
      | .error e => ([r.resource], .error e)
    | _ => replay create rest

/-- The objects of the Add records of a journal, in file order. -/
def addResources (rs : List Record) : List Obj :=
  (rs.filter fun r => r.event = RecEvent.add).map Record.resource

/-!
## Helper lemmas
-/

theorem decodeStrPairs_encode (l : List (String × String)) :
    decodeStrPairs (l.map fun p => (p.1, Json.str p.2)) = some l := by
  induction l with
  | nil => rfl
  | cons h t ih =>
    obtain ⟨k, v⟩ := h
    simp [decodeStrPairs, ih]

theorem decodeClaimRef_encode (cr : Option ClaimRef) :
    decodeClaimRef (encodeClaimRef cr) = some cr := by
  cases cr with
  | none => rfl
  | some c => cases c; rfl

theorem takeStr_head (key v : String) (t : List (String × Json)) :
    takeStr key ((key, .str v) :: t) = some (v, t) := by
  simp [takeStr]

theorem takeNum_head (key : String) (v : Int) (t : List (String × Json)) :
    takeNum key ((key, .num v) :: t) = some (v, t) := by
  simp [takeNum]

theorem takeVal_head (key : String) (v : Json) (t : List (String × Json)) :
    takeVal key ((key, v) :: t) = some (v, t) := by
  simp [takeVal]

set_option maxHeartbeats 1000000 in
theorem decodeObj_encode (o : Obj) : decodeObj (encodeObj o) = some o := by
  rw [encodeObj, decodeObj]
  simp only [takeStr_head, takeNum_head]
  rw [decodeObjTail]
  simp only [takeVal_head, takeStr_head, decodeClaimRef_encode, encodeRest,
    decodeStrPairs_encode]

theorem recEventOfString_toString (e : RecEvent) :
    recEventOfString (recEventToString e) = some e := by
  cases e <;> rfl

theorem decodeRecord_encode (r : Record) : decodeRecord (encodeRecord r) = some r := by
  obtain ⟨e, o⟩ := r
  simp [encodeRecord, decodeRecord, recEventOfString_toString, decodeObj_encode]

theorem decodeRecordList_encode (rs : List Record) :
    decodeRecordList (rs.map encodeRecord) = some rs := by
  induction rs with
  | nil => rfl
  | cons h t ih => simp [decodeRecordList, decodeRecord_encode, ih]

theorem decodeJournal_encode (rs : List Record) :
    decodeJournal (encodeJournal rs) = some rs := by
  simp [decodeJournal, encodeJournal, decodeRecordList_encode]

theorem addResources_cons_add (r : Record) (rs : List Record)
    (h : r.event = RecEvent.add) :
    addResources (r :: rs) = r.resource :: addResources rs := by
  simp [addResources, h]

theorem addResources_cons_other (r : Record) (rs : List Record)
    (h : r.event ≠ RecEvent.add) :
    addResources (r :: rs) = addResources rs := by
  simp [addResources, h]

theorem addResources_append (l1 l2 : List Record) :
    addResources (l1 ++ l2) = addResources l1 ++ addResources l2 := by
  simp [addResources]

/-- C2: for every sequence of events the Recorder observes, the journal file
read back and deserialized yields exactly the same sequence of records,
element for element and in order, each record's object being exactly the
object observed — no filtering or mutation before journaling. -/
theorem recorder_journal_lossless (events : List (RecEvent × Obj)) :
    decodeJournal (recorderJournalFile events) = some (recorderRecords events)
    ∧ (recorderRecords events).length = events.length
    ∧ (recorderRecords events).map Record.event = events.map Prod.fst
    ∧ (recorderRecords events).map Record.resource = events.map Prod.snd := by
  refine ⟨decodeJournal_encode _, ?_, ?_, ?_⟩ <;> simp [recorderRecords]

theorem replay_all_benign (create : Obj → Except GoErr Unit) :
    ∀ records : List Record,
    (∀ o ∈ addResources records,
        create o = .ok () ∨ create o = .error .alreadyExists) →
    replay create records = (addResources records, .ok ()) := by
  intro records
  induction records with
  | nil => intro _; simp [replay, addResources]
  | cons r rest ih =>
    intro h
    cases hr : r.event with
    | add =>
      have hmem : r.resource ∈ addResources (r :: rest) := by
        rw [addResources_cons_add _ _ hr]; exact List.mem_cons_self _ _
      have hrest : ∀ o ∈ addResources rest,
          create o = .ok () ∨ create o = .error .alreadyExists := by
        intro o ho
        exact h o (by rw [addResources_cons_add _ _ hr]; exact List.mem_cons_of_mem _ ho)
      rcases h r.resource hmem with hc | hc <;>
        simp [replay, hr, hc, ih hrest, addResources_cons_add _ _ hr]
    | update =>
      have hne : r.event ≠ RecEvent.add := by rw [hr]; intro hcon; cases hcon
      have hrest : ∀ o ∈ addResources rest,
          create o = .ok () ∨ create o = .error .alreadyExists := by
        rw [addResources_cons_other _ _ hne] at h; exact h
      rw [addResources_cons_other _ _ hne]
      simpa [replay, hr] using ih hrest
    | delete =>
      have hne : r.event ≠ RecEvent.add := by rw [hr]; intro hcon; cases hcon
      have hrest : ∀ o ∈ addResources rest,
          create o = .ok () ∨ create o = .error .alreadyExists := by
        rw [addResources_cons_other _ _ hne] at h; exact h
      rw [addResources_cons_other _ _ hne]
      simpa [replay, hr] using ih hrest

theorem replay_abort (create : Obj → Except GoErr Unit) (r : Record)
    (post : List Record) (e : GoErr) (hradd : r.event = RecEvent.add)
    (hcreate : create r.resource = .error e) (hne : e ≠ .alreadyExists) :
    ∀ pre : List Record,
    (∀ o ∈ addResources pre,
        create o = .ok () ∨ create o = .error .alreadyExists) →
    replay create (pre ++ r :: post) = (addResources pre ++ [r.resource], .error e) := by
  intro pre
  induction pre with
  | nil =>
    intro _
    cases e with
    | alreadyExists => exact absurd rfl hne
    | notFound => simp [replay, hradd, hcreate, addResources]
    | other msg => simp [replay, hradd, hcreate, addResources]
  | cons p pre ih =>
    intro h
    cases hp : p.event with
    | add =>
      have hmem : p.resource ∈ addResources (p :: pre) := by
        rw [addResources_cons_add _ _ hp]; exact List.mem_cons_self _ _
      have hrest : ∀ o ∈ addResources pre,
          create o = .ok () ∨ create o = .error .alreadyExists := by
        intro o ho
        exact h o (by rw [addResources_cons_add _ _ hp]; exact List.mem_cons_of_mem _ ho)
      rcases h p.resource hmem with hc | hc <;>
        simp [replay, hp, hc, ih hrest, addResources_cons_add _ _ hp]
    | update =>
      have hpne : p.event ≠ RecEvent.add := by rw [hp]; intro hcon; cases hcon
      have hrest : ∀ o ∈ addResources pre,
          create o = .ok () ∨ create o = .error .alreadyExists := by
        rw [addResources_cons_other _ _ hpne] at h; exact h
      rw [addResources_cons_other _ _ hpne]
      simpa [replay, hp] using ih hrest
    | delete =>
      have hpne : p.event ≠ RecEvent.add := by rw [hp]; intro hcon; cases hcon
      have hrest : ∀ o ∈ addResources pre,
          create o = .ok () ∨ create o = .error .alreadyExists := by
        rw [addResources_cons_other _ _ hpne] at h; exact h
      rw [addResources_cons_other _ _ hpne]
      simpa [replay, hp] using ih hrest

/-- C3: Replay invokes Create once per Add record in file order; a Create
failing with AlreadyExists is treated as success and replay continues; any
other Create error aborts the remaining records and is returned to the
caller. -/
theorem replayer_create_per_add (create : Obj → Except GoErr Unit)
    (records : List Record) :
    ((∀ o ∈ addResources records,
        create o = .ok () ∨ create o = .error .alreadyExists) →
      replay create records = (addResources records, .ok ()))
    ∧ (∀ pre r post e, records = pre ++ r :: post →
        (∀ o ∈ addResources pre,
          create o = .ok () ∨ create o = .error .alreadyExists) →
        r.event = RecEvent.add → create r.resource = .error e →
        e ≠ .alreadyExists →
        replay create records = (addResources pre ++ [r.resource], .error e)) := by
  constructor
  · exact replay_all_benign create records
  · intro pre r post e hrec hpre hradd hcreate hne
    rw [hrec]
    exact replay_abort create r post e hradd hcreate hne pre hpre


theorem mutatePV_not_bound (c : Clients) (ev : Event) (o : Obj)
    (hb : o.phase ≠ "Bound") : mutatePV c ev o = .ok o := by
  simp [mutatePV, hb]

theorem mutatePV_bound_some (c : Clients) (ev : Event) (o : Obj)
    (cr : ClaimRef) (pvc : Obj) (hb : o.phase = "Bound")
    (hcr : o.claimRef = some cr)
    (hg : c.srcGet pvcGVR cr.ns cr.name = some pvc) :
    mutatePV c ev o = .ok { o with claimRef := some { cr with uid := pvc.uid } } := by
  simp [mutatePV, hb, hcr, hg]

theorem mutatePV_preserves_meta (c : Clients) (ev : Event) (o o2 : Obj)
    (h : mutatePV c ev o = .ok o2) :
    o2.uid = o.uid ∧ o2.generation = o.generation
    ∧ o2.resourceVersion = o.resourceVersion := by
  by_cases hb : o.phase = "Bound"
  · cases hcr : o.claimRef with
    | none => simp [mutatePV, hb, hcr] at h
    | some cr =>
      cases hg : c.srcGet pvcGVR cr.ns cr.name with
      | none => simp [mutatePV, hb, hcr, hg] at h
      | some pvc =>
        rw [mutatePV_bound_some c ev o cr pvc hb hcr hg] at h
        cases h
        exact ⟨rfl, rfl, rfl⟩
  · rw [mutatePV_not_bound c ev o hb] at h
    cases h
    exact ⟨rfl, rfl, rfl⟩

theorem mutatePods_preserves_meta (c : Clients) (ev : Event) (o o2 : Obj)
    (h : mutatePods c ev o = .ok o2) :
    o2.uid = o.uid ∧ o2.generation = o.generation
    ∧ o2.resourceVersion = o.resourceVersion := by
  unfold mutatePods at h
  cases h
  exact ⟨rfl, rfl, rfl⟩


theorem createAfterFilter_handed (s : Service) (gvr : GVR) (ns : String)
    (o : Obj) (gvr2 : GVR) (ns2 : String) (handed : Obj)
    (h : createAfterFilter s gvr ns o = .handed gvr2 ns2 handed) :
    gvr2 = gvr ∧ ns2 = ns
    ∧ (∀ m, s.mutatingFunctions gvr = some m →
        m s.clients .add (removeUnnecessaryMetadata o) = .ok handed)
    ∧ (s.mutatingFunctions gvr = none → handed = removeUnnecessaryMetadata o) := by
  cases hm : s.mutatingFunctions gvr with
  | none =>
    have hcomp : createAfterFilter s gvr ns o =
        .handed gvr ns (removeUnnecessaryMetadata o) := by
      unfold createAfterFilter
      rw [hm]
    rw [hcomp] at h
    injection h with h1 h2 h3
    subst h1
    subst h2
    refine ⟨rfl, rfl, ?_, fun _ => h3.symm⟩
    intro m hmm
    cases hmm
  | some m =>
    cases hr : m s.clients .add (removeUnnecessaryMetadata o) with
    | ok mutated =>
      have hcomp : createAfterFilter s gvr ns o = .handed gvr ns mutated := by
        unfold createAfterFilter
        rw [hm]
        simp only [hr]
      rw [hcomp] at h
      injection h with h1 h2 h3
      subst h1
      subst h2
      refine ⟨rfl, rfl, fun m2 hm2 => ?_, fun hnone => ?_⟩
      · injection hm2 with hm3
        subst hm3
        rw [hr, h3]
      · cases hnone
    | err e =>
      have hcomp : createAfterFilter s gvr ns o = .mutateErr e := by
        unfold createAfterFilter
        rw [hm]
        simp only [hr]
      rw [hcomp] at h
      cases h
    | nilPanic =>
      have hcomp : createAfterFilter s gvr ns o = .mutateCrashed := by
        unfold createAfterFilter
        rw [hm]
        simp only [hr]
      rw [hcomp] at h
      cases h

theorem updateAfterFilter_handed (s : Service) (gvr : GVR) (ns : String)
    (o : Obj) (gvr2 : GVR) (ns2 : String) (handed : Obj)
    (h : updateAfterFilter s gvr ns o = .handed gvr2 ns2 handed) :
    gvr2 = gvr ∧ ns2 = ns
    ∧ (∀ m, s.mutatingFunctions gvr = some m →
        m s.clients .update o = .ok handed)
    ∧ (s.mutatingFunctions gvr = none → handed = o) := by
  cases hm : s.mutatingFunctions gvr with
  | none =>
    have hcomp : updateAfterFilter s gvr ns o = .handed gvr ns o := by
      unfold updateAfterFilter
      rw [hm]
    rw [hcomp] at h
    injection h with h1 h2 h3
    subst h1
    subst h2
    refine ⟨rfl, rfl, ?_, fun _ => h3.symm⟩
    intro m hmm
    cases hmm
  | some m =>
    cases hr : m s.clients .update o with
    | ok mutated =>
      have hcomp : updateAfterFilter s gvr ns o = .handed gvr ns mutated := by
        unfold updateAfterFilter
        rw [hm]
        simp only [hr]
      rw [hcomp] at h
      injection h with h1 h2 h3
      subst h1
      subst h2
      refine ⟨rfl, rfl, fun m2 hm2 => ?_, fun hnone => ?_⟩
      · injection hm2 with hm3
        subst hm3
        rw [hr, h3]
      · cases hnone
    | err e =>
      have hcomp : updateAfterFilter s gvr ns o = .mutateErr e := by
        unfold updateAfterFilter
        rw [hm]
        simp only [hr]
      rw [hcomp] at h
      cases h
    | nilPanic =>
      have hcomp : updateAfterFilter s gvr ns o = .mutateCrashed := by
        unfold updateAfterFilter
        rw [hm]
        simp only [hr]
      rw [hcomp] at h
      cases h

theorem createResource_handed (s : Service) (o : Obj) (gvr : GVR)
    (ns : String) (handed : Obj)
    (h : createResourceOnDestinationCluster s o = .handed gvr ns handed) :
    findGVRForGVK s o.kind o.apiVersion = some gvr ∧ ns = o.ns
    ∧ (∀ m, s.mutatingFunctions gvr = some m →
        m s.clients .add (removeUnnecessaryMetadata o) = .ok handed)
    ∧ (s.mutatingFunctions gvr = none → handed = removeUnnecessaryMetadata o) := by
  unfold createResourceOnDestinationCluster at h
  cases hg : findGVRForGVK s o.kind o.apiVersion with
  | none => rw [hg] at h; cases h
  | some gvr0 =>
    rw [hg] at h
    have hafter : createAfterFilter s gvr0 o.ns o = .handed gvr ns handed := by
      cases hf : s.filteringFunctions gvr0 with
      | none => simp only [hf] at h; exact h
      | some f =>
        simp only [hf] at h
        cases hfr : f s.clients .add o with
        | error e => simp only [hfr] at h; cases h
        | ok b =>
          simp only [hfr] at h
          cases b with
          | false => cases h
          | true => exact h
    obtain ⟨h1, h2, h3, h4⟩ := createAfterFilter_handed s gvr0 o.ns o gvr ns handed hafter
    subst h1
    subst h2
    exact ⟨rfl, rfl, h3, h4⟩

theorem updateResource_handed (s : Service) (o : Obj) (gvr : GVR)
    (ns : String) (handed : Obj)
    (h : updateResourceOnDestinationCluster s o = .handed gvr ns handed) :
    findGVRForGVK s o.kind o.apiVersion = some gvr ∧ ns = o.ns
    ∧ (∀ m, s.mutatingFunctions gvr = some m →
        m s.clients .update o = .ok handed)
    ∧ (s.mutatingFunctions gvr = none → handed = o) := by
  unfold updateResourceOnDestinationCluster at h
  cases hg : findGVRForGVK s o.kind o.apiVersion with
  | none => rw [hg] at h; cases h
  | some gvr0 =>
    rw [hg] at h
    have hafter : updateAfterFilter s gvr0 o.ns o = .handed gvr ns handed := by
      cases hf : s.filteringFunctions gvr0 with
      | none => simp only [hf] at h; exact h
      | some f =>
        simp only [hf] at h
        cases hfr : f s.clients .update o with
        | error e => simp only [hfr] at h; cases h
        | ok b =>
          simp only [hfr] at h
          cases b with
          | false => cases h
          | true => exact h
    obtain ⟨h1, h2, h3, h4⟩ := updateAfterFilter_handed s gvr0 o.ns o gvr ns handed hafter
    subst h1
    subst h2
    exact ⟨rfl, rfl, h3, h4⟩

theorem newService_empty_mutating (c : Clients) (opts : Options)
    (hadd : opts.additionalMutatingFunctions = []) :
    (newService c opts).mutatingFunctions = MandatoryMutatingFunctions := by
  funext gvr
  simp [newService, hadd, lookupFn]

theorem newService_empty_filtering (c : Clients) (opts : Options)
    (hadd : opts.additionalFilteringFunctions = []) :
    (newService c opts).filteringFunctions = MandatoryFilteringFunctions := by
  funext gvr
  simp [newService, hadd, lookupFn]

theorem mandatory_mutating_preserves_meta (gvr : GVR) (m : MutatingFunction)
    (hm : MandatoryMutatingFunctions gvr = some m) (c : Clients) (ev : Event)
    (o o2 : Obj) (h : m c ev o = .ok o2) :
    o2.uid = o.uid ∧ o2.generation = o.generation
    ∧ o2.resourceVersion = o.resourceVersion := by
  unfold MandatoryMutatingFunctions at hm
  by_cases hpv : gvr = pvGVR
  · rw [if_pos hpv] at hm
    injection hm with hm2
    subst hm2
    exact mutatePV_preserves_meta c ev o o2 h
  · rw [if_neg hpv] at hm
    by_cases hpod : gvr = podsGVR
    · rw [if_pos hpod] at hm
      injection hm with hm2
      subst hm2
      exact mutatePods_preserves_meta c ev o o2 h
    · rw [if_neg hpod] at hm
      cases hm

/-!
## Concrete fixtures used by witnesses and counterexamples
-/

/-- A REST mapper covering the kinds the test fixtures use. -/
def stdRestMapper : String → String → Option GVR := fun kind apiVersion =>
  if apiVersion = "v1" ∧ kind = "Pod" then some podsGVR
  else if apiVersion = "v1" ∧ kind = "PersistentVolume" then some pvGVR
  else if apiVersion = "v1" ∧ kind = "Node" then some ⟨"", "v1", "nodes"⟩
  else none

/-- A store with no objects: every Get is NotFound. -/
def emptyStore : GVR → String → String → Option Obj := fun _ _ _ => none

/-- Clients over empty stores with the standard mapper. -/
def stdClients : Clients := ⟨emptyStore, emptyStore, stdRestMapper⟩

/-- Options with no additional functions (New's defaults). -/
def emptyOptions : Options := ⟨none, [], []⟩

/-- An unscheduled pod carrying source-assigned identity fields. -/
def podA : Obj :=
  { apiVersion := "v1", kind := "Pod", name := "pod-1", ns := "default",
    uid := "uid-1", generation := 3, resourceVersion := "45", nodeName := "",
    serviceAccountName := "sa-1", claimRef := none, phase := "",
    rest := [("labels.app", "nginx")] }

/-- What the shipped pipeline hands to Create for podA: identity stripped,
then the pod mutator resets the service account. -/
def podAHanded : Obj :=
  { removeUnnecessaryMetadata podA with serviceAccountName := "default" }

/-- C1: for every Add event that passes the filtering step, the object is
stripped of UID, generation and resourceVersion unconditionally — before any
mutating function runs (the mutating function receives the stripped object)
and before the destination Create; and with the pipeline New builds by
default (mandatory functions only) the object handed to Create itself
carries empty UID, zero generation and empty resourceVersion, for every
object kind. -/
theorem syncer_add_strips_identity :
    (∀ (s : Service) (gvr : GVR) (ns : String) (o handed : Obj),
        createResourceOnDestinationCluster s o = .handed gvr ns handed →
        ((removeUnnecessaryMetadata o).uid = ""
          ∧ (removeUnnecessaryMetadata o).generation = 0
          ∧ (removeUnnecessaryMetadata o).resourceVersion = "")
        ∧ (∀ m, s.mutatingFunctions gvr = some m →
            m s.clients .add (removeUnnecessaryMetadata o) = .ok handed)
        ∧ (s.mutatingFunctions gvr = none → handed = removeUnnecessaryMetadata o))
    ∧ (∀ (c : Clients) (opts : Options) (gvr : GVR) (ns : String) (o handed : Obj),
        opts.additionalMutatingFunctions = [] →
        createResourceOnDestinationCluster (newService c opts) o = .handed gvr ns handed →
        handed.uid = "" ∧ handed.generation = 0 ∧ handed.resourceVersion = "") := by
  constructor
  · intro s gvr ns o handed h
    obtain ⟨_, _, h3, h4⟩ := createResource_handed s o gvr ns handed h
    exact ⟨⟨rfl, rfl, rfl⟩, h3, h4⟩
  · intro c opts gvr ns o handed hadd h
    obtain ⟨_, _, h3, h4⟩ := createResource_handed _ o gvr ns handed h
    have hmf : (newService c opts).mutatingFunctions = MandatoryMutatingFunctions :=
      newService_empty_mutating c opts hadd
    cases hm : MandatoryMutatingFunctions gvr with
    | none =>
      have hid := h4 (by rw [hmf]; exact hm)
      rw [hid]
      exact ⟨rfl, rfl, rfl⟩
    | some m =>
      have hr := h3 m (by rw [hmf]; exact hm)
      have hp := mandatory_mutating_preserves_meta gvr m hm _ .add _ handed hr
      simpa [removeUnnecessaryMetadata] using hp

/-- Witness for C1: the default service handles a concrete pod Add; the
object handed to Create has its identity fields cleared. -/
theorem syncer_add_strips_identity_witness :
    emptyOptions.additionalMutatingFunctions = ([] : List (GVR × MutatingFunction))
    ∧ createResourceOnDestinationCluster (newService stdClients emptyOptions) podA
        = ApplyOutcome.handed podsGVR "default" podAHanded
    ∧ (podAHanded.uid = "" ∧ podAHanded.generation = 0
        ∧ podAHanded.resourceVersion = "") :=
  have hEq : createResourceOnDestinationCluster (newService stdClients emptyOptions) podA
      = ApplyOutcome.handed podsGVR "default" podAHanded := by decide
  ⟨rfl, hEq,
    syncer_add_strips_identity.2 stdClients emptyOptions podsGVR "default" podA podAHanded
      rfl hEq⟩

/-- C10: the update path performs no metadata stripping: the mutating
function (when registered) receives the object exactly as observed, an
unregistered kind's object is handed to Update unchanged, and with the
default (mandatory-only) pipeline the UID, generation and resourceVersion
handed to Update are exactly the observed ones. -/
theorem syncer_update_keeps_identity :
    (∀ (s : Service) (gvr : GVR) (ns : String) (o handed : Obj),
        updateResourceOnDestinationCluster s o = .handed gvr ns handed →
        (∀ m, s.mutatingFunctions gvr = some m →
            m s.clients .update o = .ok handed)
        ∧ (s.mutatingFunctions gvr = none → handed = o))
    ∧ (∀ (c : Clients) (opts : Options) (gvr : GVR) (ns : String) (o handed : Obj),
        opts.additionalMutatingFunctions = [] →
        updateResourceOnDestinationCluster (newService c opts) o = .handed gvr ns handed →
        handed.uid = o.uid ∧ handed.generation = o.generation
          ∧ handed.resourceVersion = o.resourceVersion) := by
  constructor
  · intro s gvr ns o handed h
    obtain ⟨_, _, h3, h4⟩ := updateResource_handed s o gvr ns handed h
    exact ⟨h3, h4⟩
  · intro c opts gvr ns o handed hadd h
    obtain ⟨_, _, h3, h4⟩ := updateResource_handed _ o gvr ns handed h
    have hmf : (newService c opts).mutatingFunctions = MandatoryMutatingFunctions :=
      newService_empty_mutating c opts hadd
    cases hm : MandatoryMutatingFunctions gvr with
    | none =>
      have hid := h4 (by rw [hmf]; exact hm)
      rw [hid]
      exact ⟨rfl, rfl, rfl⟩
    | some m =>
      have hr := h3 m (by rw [hmf]; exact hm)
      exact mandatory_mutating_preserves_meta gvr m hm _ .update _ handed hr

/-- What the shipped pipeline hands to Update for podA: only the service
account is reset; the identity fields are untouched. -/
def podAUpdated : Obj := { podA with serviceAccountName := "default" }

/-- Witness for C10: updating the concrete pod hands Update an object still
carrying uid-1, generation 3 and resourceVersion 45. -/
theorem syncer_update_keeps_identity_witness :
    emptyOptions.additionalMutatingFunctions = ([] : List (GVR × MutatingFunction))
    ∧ updateResourceOnDestinationCluster (newService stdClients emptyOptions) podA
        = ApplyOutcome.handed podsGVR "default" podAUpdated
    ∧ (podAUpdated.uid = podA.uid ∧ podAUpdated.generation = podA.generation
        ∧ podAUpdated.resourceVersion = podA.resourceVersion) :=
  have hEq : updateResourceOnDestinationCluster (newService stdClients emptyOptions) podA
      = ApplyOutcome.handed podsGVR "default" podAUpdated := by decide
  ⟨rfl, hEq,
    syncer_update_keeps_identity.2 stdClients emptyOptions podsGVR "default" podA podAUpdated
      rfl hEq⟩

/-- C4: filterPods passes every Add regardless of placement, passes an
Update whose pod has an empty nodeName, rejects an Update whose pod already
has a node assigned; and through the default pipeline such a post-placement
Update is skipped and never reaches the destination write. -/
theorem filterPods_placement_suppression :
    (∀ (c : Clients) (o : Obj), filterPods c .add o = .ok true)
    ∧ (∀ (c : Clients) (o : Obj), o.nodeName = "" → filterPods c .update o = .ok true)
    ∧ (∀ (c : Clients) (o : Obj), o.nodeName ≠ "" → filterPods c .update o = .ok false)
    ∧ (∀ (c : Clients) (opts : Options) (o : Obj),
        opts.additionalFilteringFunctions = [] →
        c.restMapper o.kind o.apiVersion = some podsGVR →
        o.nodeName ≠ "" →
        updateResourceOnDestinationCluster (newService c opts) o = .skipped) := by
  refine ⟨fun c o => rfl, fun c o h => ?_, fun c o h => ?_, fun c opts o hadd hmap h => ?_⟩
  · simp [filterPods, h]
  · simp [filterPods, h]
  · have hff : (newService c opts).filteringFunctions = MandatoryFilteringFunctions :=
      newService_empty_filtering c opts hadd
    have hmap2 : findGVRForGVK (newService c opts) o.kind o.apiVersion = some podsGVR := hmap
    have hman : MandatoryFilteringFunctions podsGVR = some filterPods := by
      unfold MandatoryFilteringFunctions
      rw [if_pos rfl]
    have hfp : filterPods (newService c opts).clients .update o = .ok false := by
      simp [filterPods, h]
    unfold updateResourceOnDestinationCluster
    rw [hmap2, hff]
    simp only [hman, hfp]

/-- A pod already scheduled onto a node. -/
def podScheduled : Obj := { podA with nodeName := "node-1" }

/-- Witness for C4: the scheduled pod's Update is skipped; its Add passes
the filtering function. -/
theorem filterPods_placement_suppression_witness :
    podScheduled.nodeName ≠ ""
    ∧ filterPods stdClients .add podScheduled = .ok true
    ∧ filterPods stdClients .update podScheduled = .ok false
    ∧ updateResourceOnDestinationCluster (newService stdClients emptyOptions) podScheduled
        = ApplyOutcome.skipped :=
  ⟨by decide,
    filterPods_placement_suppression.1 stdClients podScheduled,
    filterPods_placement_suppression.2.2.1 stdClients podScheduled (by decide),
    filterPods_placement_suppression.2.2.2 stdClients emptyOptions podScheduled rfl
      (by decide) (by decide)⟩

/-- C9: mutatePV dereferences the claim reference of a Bound PV without a
nil check: a Bound PV with no claimRef reaches the nil-dereference outcome,
and conversely any non-crashing run of mutatePV on a Bound PV implies the
claimRef was present. -/
theorem mutatePV_nil_claimRef_crashes :
    (∀ (c : Clients) (ev : Event) (o : Obj),
        o.phase = "Bound" → o.claimRef = none → mutatePV c ev o = .nilPanic)
    ∧ (∀ (c : Clients) (ev : Event) (o : Obj),
        mutatePV c ev o ≠ .nilPanic → o.phase = "Bound" → o.claimRef ≠ none) := by
  constructor
  · intro c ev o hb hcr
    simp [mutatePV, hb, hcr]
  · intro c ev o hne hb hcr
    exact hne (by simp [mutatePV, hb, hcr])

/-- A Bound PV carrying no claim reference. -/
def pvNoClaim : Obj :=
  { apiVersion := "v1", kind := "PersistentVolume", name := "pv-1", ns := "",
    uid := "uid-pv", generation := 1, resourceVersion := "7", nodeName := "",
    serviceAccountName := "", claimRef := none, phase := "Bound", rest := [] }

/-- Witness for C9: the concrete Bound PV without a claimRef reaches the
nil-dereference branch. -/
theorem mutatePV_nil_claimRef_crashes_witness :
    pvNoClaim.phase = "Bound" ∧ pvNoClaim.claimRef = none
    ∧ mutatePV stdClients .add pvNoClaim = .nilPanic :=
  ⟨rfl, rfl, mutatePV_nil_claimRef_crashes.1 stdClients .add pvNoClaim rfl rfl⟩

/-- The PVC as the source cluster has it. -/
def pvcSrc : Obj :=
  { apiVersion := "v1", kind := "PersistentVolumeClaim", name := "claim-1",
    ns := "default", uid := "uid-src", generation := 1, resourceVersion := "11",
    nodeName := "", serviceAccountName := "", claimRef := none, phase := "Bound",
    rest := [] }

/-- The same PVC as the destination cluster has it: re-created there, so it
carries a different, destination-assigned UID. -/
def pvcDest : Obj := { pvcSrc with uid := "uid-dest", resourceVersion := "2" }

/-- Clients whose source and destination stores disagree on the claim's UID. -/
def c5clients : Clients :=
  ⟨fun gvr ns name =>
      if gvr = pvcGVR ∧ ns = "default" ∧ name = "claim-1" then some pvcSrc else none,
    fun gvr ns name =>
      if gvr = pvcGVR ∧ ns = "default" ∧ name = "claim-1" then some pvcDest else none,
    stdRestMapper⟩

/-- A Bound PV referencing claim-1 with a stale UID. -/
def pvBound : Obj :=
  { apiVersion := "v1", kind := "PersistentVolume", name := "pv-1", ns := "",
    uid := "uid-pv", generation := 1, resourceVersion := "9", nodeName := "",
    serviceAccountName := "", claimRef := some ⟨"default", "claim-1", "uid-stale"⟩,
    phase := "Bound", rest := [] }

/-- C5 counterexample: mutatePV re-resolves the referenced claim on the
*source* store, so the mutated PV carries the source-side UID uid-src, not
the destination-side uid-dest the destination store holds for that claim. -/
theorem mutatePV_source_uid_counterexample :
    mutatePV c5clients .add pvBound
      = .ok { pvBound with claimRef := some ⟨"default", "claim-1", "uid-src"⟩ }
    ∧ (c5clients.destGet pvcGVR "default" "claim-1").map Obj.uid = some "uid-dest"
    ∧ mutatePV c5clients .add pvBound
      ≠ .ok { pvBound with claimRef := some ⟨"default", "claim-1", "uid-dest"⟩ } := by
  exact ⟨by decide, by decide, by decide⟩

/-- C5 amended: for a Bound PV, mutatePV replaces spec.claimRef.UID with the
UID of the referenced PVC as re-resolved on the source store (NotFound when
the source lookup fails); a PV not in the Bound phase is returned with its
claimRef unchanged. -/
theorem mutatePV_rewrites_claimRef_uid_from_source :
    (∀ (c : Clients) (ev : Event) (o : Obj) (cr : ClaimRef) (pvc : Obj),
        o.phase = "Bound" → o.claimRef = some cr →
        c.srcGet pvcGVR cr.ns cr.name = some pvc →
        mutatePV c ev o = .ok { o with claimRef := some { cr with uid := pvc.uid } })
    ∧ (∀ (c : Clients) (ev : Event) (o : Obj),
        o.phase ≠ "Bound" → mutatePV c ev o = .ok o)
    ∧ (∀ (c : Clients) (ev : Event) (o : Obj) (cr : ClaimRef),
        o.phase = "Bound" → o.claimRef = some cr →
        c.srcGet pvcGVR cr.ns cr.name = none →
        mutatePV c ev o = .err .notFound) := by
  refine ⟨mutatePV_bound_some, mutatePV_not_bound, ?_⟩
  intro c ev o cr hb hcr hg
  simp [mutatePV, hb, hcr, hg]

/-- Witness for C5 (amended): the concrete Bound PV is rewritten with the
source store's UID for claim-1. -/
theorem mutatePV_rewrites_claimRef_uid_from_source_witness :
    pvBound.phase = "Bound"
    ∧ pvBound.claimRef = some ⟨"default", "claim-1", "uid-stale"⟩
    ∧ c5clients.srcGet pvcGVR "default" "claim-1" = some pvcSrc
    ∧ mutatePV c5clients .add pvBound
      = .ok { pvBound with claimRef := some ⟨"default", "claim-1", "uid-src"⟩ } :=
  ⟨rfl, rfl, by decide,
    mutatePV_rewrites_claimRef_uid_from_source.1 c5clients .add pvBound
      ⟨"default", "claim-1", "uid-stale"⟩ pvcSrc rfl rfl (by decide)⟩

/-- A caller-supplied pod mutating function that does not call the mandatory
one: it returns the object unchanged. -/
def g6 : MutatingFunction := fun _ _ o => .ok o

/-- Options registering g6 as an additional mutating function for pods. -/
def opts6 : Options := ⟨none, [(podsGVR, g6)], []⟩

/-- The service New builds from opts6. -/
def svc6 : Service := newService stdClients opts6

/-- C6 counterexample: with both a mandatory and an additional pod mutating
function registered, the pipeline runs only the additional one — the object
handed to Create still carries the source service account sa-1, whereas
running the mandatory entry first (and then the additional one) would hand
an object with service account "default". -/
theorem newService_overwrites_counterexample :
    createResourceOnDestinationCluster svc6 podA
      = .handed podsGVR "default" (removeUnnecessaryMetadata podA)
    ∧ (removeUnnecessaryMetadata podA).serviceAccountName = "sa-1"
    ∧ mutatePods stdClients .add (removeUnnecessaryMetadata podA)
      = .ok { removeUnnecessaryMetadata podA with serviceAccountName := "default" }
    ∧ g6 stdClients .add { removeUnnecessaryMetadata podA with serviceAccountName := "default" }
      = .ok { removeUnnecessaryMetadata podA with serviceAccountName := "default" }
    ∧ ("sa-1" : String) ≠ "default" := by
  exact ⟨by decide, by decide, by decide, by decide, by decide⟩

/-- C6 amended: New does not append — an additional entry for a kind
replaces (overwrites) the mandatory entry in the service's map; mandatory
entries still serve every kind with no additional entry.  (The Options
documentation instead obliges callers to invoke the mandatory functions from
their own.) -/
theorem newService_additional_overwrites :
    (∀ (c : Clients) (opts : Options) (gvr : GVR) (f : MutatingFunction),
        lookupFn opts.additionalMutatingFunctions gvr = some f →
        (newService c opts).mutatingFunctions gvr = some f)
    ∧ (∀ (c : Clients) (opts : Options) (gvr : GVR),
        lookupFn opts.additionalMutatingFunctions gvr = none →
        (newService c opts).mutatingFunctions gvr = MandatoryMutatingFunctions gvr)
    ∧ (∀ (c : Clients) (opts : Options) (gvr : GVR) (f : FilteringFunction),
        lookupFn opts.additionalFilteringFunctions gvr = some f →
        (newService c opts).filteringFunctions gvr = some f)
    ∧ (∀ (c : Clients) (opts : Options) (gvr : GVR),
        lookupFn opts.additionalFilteringFunctions gvr = none →
        (newService c opts).filteringFunctions gvr = MandatoryFilteringFunctions gvr) := by
  refine ⟨?_, ?_, ?_, ?_⟩ <;> intro c opts gvr
  · intro f h
    simp [newService, h]
  · intro h
    simp [newService, h]
  · intro f h
    simp [newService, h]
  · intro h
    simp [newService, h]

/-- Witness for C6 (amended): for pods the service's map holds only g6; for
persistentvolumes (no additional entry) it holds the mandatory entry. -/
theorem newService_additional_overwrites_witness :
    lookupFn opts6.additionalMutatingFunctions podsGVR = some g6
    ∧ (newService stdClients opts6).mutatingFunctions podsGVR = some g6
    ∧ lookupFn opts6.additionalMutatingFunctions pvGVR = none
    ∧ (newService stdClients opts6).mutatingFunctions pvGVR
      = MandatoryMutatingFunctions pvGVR :=
  ⟨rfl, newService_additional_overwrites.1 stdClients opts6 podsGVR g6 rfl,
    rfl, newService_additional_overwrites.2.1 stdClients opts6 pvGVR rfl⟩

/-- A service with no registered pipeline functions but the standard clients,
used to compare delete behaviour across differently-configured services. -/
def svcBare : Service :=
  { clients := stdClients, gvrs := [],
    mutatingFunctions := fun _ => none, filteringFunctions := fun _ => none }

/-- C8: a Delete event consults no filtering or mutating function — the
delete outcome is the same for any two services with the same clients,
whatever functions they register — and once the kind resolves, the
destination delete is attempted unconditionally for the observed object's
namespace and name. -/
theorem delete_bypasses_pipeline :
    (∀ (s1 s2 : Service) (o : Obj), s1.clients = s2.clients →
        deleteResourceOnDestinationCluster s1 o = deleteResourceOnDestinationCluster s2 o)
    ∧ (∀ (s : Service) (o : Obj) (gvr : GVR),
        findGVRForGVK s o.kind o.apiVersion = some gvr →
        deleteResourceOnDestinationCluster s o = .handed gvr o.ns o.name) := by
  constructor
  · intro s1 s2 o h
    unfold deleteResourceOnDestinationCluster findGVRForGVK
    rw [h]
  · intro s o gvr h
    unfold deleteResourceOnDestinationCluster
    rw [h]

/-- Witness for C8: the default service and a service with all pipeline
functions removed produce the same delete, aimed at podA's namespace/name. -/
theorem delete_bypasses_pipeline_witness :
    (newService stdClients emptyOptions).clients = svcBare.clients
    ∧ deleteResourceOnDestinationCluster (newService stdClients emptyOptions) podA
      = deleteResourceOnDestinationCluster svcBare podA
    ∧ findGVRForGVK svcBare podA.kind podA.apiVersion = some podsGVR
    ∧ deleteResourceOnDestinationCluster svcBare podA
      = DeleteOutcome.handed podsGVR "default" "pod-1" :=
  ⟨rfl, delete_bypasses_pipeline.1 (newService stdClients emptyOptions) svcBare podA rfl,
    by decide,
    delete_bypasses_pipeline.2 svcBare podA podsGVR (by decide)⟩

/-- A destination whose every call fails with AlreadyExists. -/
def destAlreadyExists : DestOracle :=
  ⟨fun _ _ _ => .error .alreadyExists,
    fun _ _ _ => .error .alreadyExists,
    fun _ _ _ => .error .alreadyExists⟩

/-- A destination whose every call fails with NotFound. -/
def destNotFound : DestOracle :=
  ⟨fun _ _ _ => .error .notFound,
    fun _ _ _ => .error .notFound,
    fun _ _ _ => .error .notFound⟩

/-- C7 counterexample: a destination Create failing with AlreadyExists is
logged by addFunc with klog.ErrorS — the failure log — not skipped and not
the benign Info log the claim asserts. -/
theorem addFunc_alreadyExists_logged_as_failure :
    destAlreadyExists.create podsGVR "default" podAHanded = .error .alreadyExists
    ∧ addFunc (newService stdClients emptyOptions) destAlreadyExists podA
      = ([.create podsGVR "default" podAHanded], .errLog)
    ∧ HandlerResult.errLog ≠ .infoLog
    ∧ HandlerResult.errLog ≠ .noLog := by
  exact ⟨rfl, by decide, by decide, by decide⟩

/-- C7 amended: every event is handed to its handler exactly once and the
feed moves on whatever the outcome (no retry, no requeue); any error from
resolution, pipeline or destination write is logged; a destination NotFound
on the Update path is logged as benign Info; but a destination error on the
Create path — AlreadyExists included — is logged as a failure. -/
theorem syncer_error_policy :
    (∀ (s : Service) (dest : DestOracle) (evs : List WatchEvent),
        processEvents s dest evs = evs.map (handleEvent s dest))
    ∧ (∀ (s : Service) (dest : DestOracle) (o : Obj) (gvr : GVR) (ns : String) (o2 : Obj),
        updateResourceOnDestinationCluster s o = .handed gvr ns o2 →
        dest.update gvr ns o2 = .error .notFound →
        updateFunc s dest o = ([.update gvr ns o2], .infoLog))
    ∧ (∀ (s : Service) (dest : DestOracle) (o : Obj) (gvr : GVR) (ns : String)
          (o2 : Obj) (e : GoErr),
        createResourceOnDestinationCluster s o = .handed gvr ns o2 →
        dest.create gvr ns o2 = .error e →
        addFunc s dest o = ([.create gvr ns o2], .errLog))
    ∧ (∀ (s : Service) (dest : DestOracle) (o : Obj),
        createResourceOnDestinationCluster s o = .resolutionErr →
        addFunc s dest o = ([], .errLog))
    ∧ (∀ (s : Service) (dest : DestOracle) (o : Obj) (e : GoErr),
        createResourceOnDestinationCluster s o = .mutateErr e →
        addFunc s dest o = ([], .errLog)) := by
  refine ⟨?_, ?_, ?_, ?_, ?_⟩
  · intro s dest evs
    induction evs with
    | nil => rfl
    | cons e rest ih => simp [processEvents, ih]
  · intro s dest o gvr ns o2 h h2
    simp [updateFunc, h, h2]
  · intro s dest o gvr ns o2 e h h2
    simp [addFunc, h, h2]
  · intro s dest o h
    simp [addFunc, h]
  · intro s dest o e h
    simp [addFunc, h]

/-- Witness for C7 (amended): the benign NotFound on a concrete pod Update
is logged as Info, while the same pod's Add against an AlreadyExists
destination is logged as a failure; a two-event feed is handled
one-handler-call per event. -/
theorem syncer_error_policy_witness :
    updateResourceOnDestinationCluster (newService stdClients emptyOptions) podA
      = ApplyOutcome.handed podsGVR "default" podAUpdated
    ∧ destNotFound.update podsGVR "default" podAUpdated = .error .notFound
    ∧ updateFunc (newService stdClients emptyOptions) destNotFound podA
      = ([.update podsGVR "default" podAUpdated], .infoLog)
    ∧ addFunc (newService stdClients emptyOptions) destAlreadyExists podA
      = ([.create podsGVR "default" podAHanded], .errLog)
    ∧ processEvents (newService stdClients emptyOptions) destNotFound
        [.added podA, .deleted podA]
      = [.added podA, .deleted podA].map
          (handleEvent (newService stdClients emptyOptions) destNotFound) :=
  have h1 : updateResourceOnDestinationCluster (newService stdClients emptyOptions) podA
      = ApplyOutcome.handed podsGVR "default" podAUpdated := by decide
  have h4 : createResourceOnDestinationCluster (newService stdClients emptyOptions) podA
      = ApplyOutcome.handed podsGVR "default" podAHanded := by decide
  ⟨h1, rfl,
    syncer_error_policy.2.1 (newService stdClients emptyOptions) destNotFound podA
      podsGVR "default" podAUpdated h1 rfl,
    syncer_error_policy.2.2.1 (newService stdClients emptyOptions) destAlreadyExists podA
      podsGVR "default" podAHanded .alreadyExists h4 rfl,
    syncer_error_policy.1 (newService stdClients emptyOptions) destNotFound
      [.added podA, .deleted podA]⟩

/-- A resource applier for the replay witness: Create on podA resolves as
AlreadyExists, Create on anything else fails hard. -/
def create3 : Obj → Except GoErr Unit := fun o =>
  if o = podA then .error .alreadyExists else .error (.other "boom")

/-- A three-record journal: an Add, an Update (no Create), and an Add that
will fail hard. -/
def records3 : List Record :=
  [⟨.add, podA⟩, ⟨.update, podA⟩, ⟨.add, podScheduled⟩]

/-- Witness for C3: replaying records3 creates podA (AlreadyExists treated
as success), skips the Update record, attempts podScheduled, and aborts
returning the hard error. -/
theorem replayer_create_per_add_witness :
    replay create3 records3 = ([podA, podScheduled], .error (.other "boom")) := by
  have hpre : ∀ o ∈ addResources [(⟨.add, podA⟩ : Record), ⟨.update, podA⟩],
      create3 o = .ok () ∨ create3 o = .error .alreadyExists := by
    intro o ho
    have ho2 : o = podA := by simpa [addResources] using ho
    subst ho2
    right
    rfl
  have happ := (replayer_create_per_add create3 records3).2
    [⟨.add, podA⟩, ⟨.update, podA⟩] ⟨.add, podScheduled⟩ [] (.other "boom")
    rfl hpre rfl rfl (by decide)
  exact happ
